import Mathlib

/-!
# BioLens core: shallow embedding and verification

This file embeds the core of the BioLens health-report analysis pipeline
(`src/agents/analysisAgent.py` and `src/agents/modelManager.py`) in Lean 4 and
proves the spec's testable properties about the embedding.

Modelling conventions:
* Python `datetime` instants are integers counting microseconds; `timedelta`
  normalisation (`days` via floor division, `seconds` via nonnegative
  remainder) is reproduced with `Int.ediv` / `Int.emod`, which agree with
  Python's floor semantics for a positive modulus.
* Python dicts become insertion-ordered association lists (`alookup` / `aset`),
  matching dict iteration order and in-place update semantics.
* Streamlit session state becomes an explicit `AgentState` record threaded
  through the functions.
* The Groq provider client is an oracle `Env`: which providers have a
  registered client, and what one completion call returns (content or the
  text of a raised exception).
-/

/-- ASCII lowercase of one character, as Python `str.lower` acts on ASCII. -/
def lowerChar (c : Char) : Char :=
  if 'A' ≤ c ∧ c ≤ 'Z' then Char.ofNat (c.toNat + 32) else c

/-- Lowercase a string character-by-character (Python `s.lower()` on ASCII text). -/
def lowerStr (s : String) : String :=
  String.mk (s.toList.map lowerChar)

/-- Does `big` start with `pat`? -/
def startsWithList : List Char → List Char → Bool
  | _, [] => true
  | [], _ :: _ => false
  | a :: as, b :: bs => a == b && startsWithList as bs

/-- Does `pat` occur as a contiguous sublist of `big`? -/
def hasSubList : List Char → List Char → Bool
  | [], pat => startsWithList [] pat
  | big@(_ :: rest), pat => startsWithList big pat || hasSubList rest pat

/-- Python's `pat in s` substring test. -/
def strContains (s pat : String) : Bool :=
  hasSubList s.toList pat.toList

/-- Helper for `splitLines`: split at newline characters, carrying the
current line in reverse. -/
def splitLinesAux : List Char → List Char → List String
  | [], cur => [String.mk cur.reverse]
  | c :: cs, cur =>
    if c == '\n' then String.mk cur.reverse :: splitLinesAux cs []
    else splitLinesAux cs (c :: cur)

/-- Python's `s.split('\n')`. -/
def splitLines (s : String) : List String :=
  splitLinesAux s.toList []

/-- Association-list lookup (Python `d[k]` / `k in d`). -/
def alookup {β : Type} : List (String × β) → String → Option β
  | [], _ => none
  | (k', v) :: rest, k => if k' == k then some v else alookup rest k

/-- Association-list store (Python `d[k] = v`): update in place when the key is
present, otherwise append, preserving dict insertion order. -/
def aset {β : Type} : List (String × β) → String → β → List (String × β)
  | [], k, v => [(k, v)]
  | (k', v') :: rest, k, v =>
    if k' == k then (k', v) :: rest else (k', v') :: aset rest k v

theorem alookup_aset_self {β : Type} (l : List (String × β)) (k : String) (v : β) :
    alookup (aset l k v) k = some v := by
  induction l with
  | nil => simp [aset, alookup]
  | cons hd tl ih =>
    obtain ⟨k', v'⟩ := hd
    by_cases h : k' = k
    · simp [aset, alookup, h]
    · simp [aset, alookup, h, ih]

theorem alookup_aset_ne {β : Type} (l : List (String × β)) (k k' : String) (v : β)
    (h : k' ≠ k) : alookup (aset l k v) k' = alookup l k' := by
  induction l with
  | nil => simp [aset, alookup, Ne.symm h]
  | cons hd tl ih =>
    obtain ⟨k₀, v₀⟩ := hd
    by_cases h₀ : k₀ = k
    · subst h₀
      simp [aset, alookup, Ne.symm h]
    · simp [aset, alookup, h₀, ih]

/-! ## Data model -/

/-- One chat message (`{role, content}` dict in the session store). -/
structure Msg where
  role : String
  content : String
deriving DecidableEq

/-- The four-field record produced by `AnalysisAgent._preprocess_data`. -/
structure ProcData where
  patient_name : String
  age : String
  gender : String
  report : String
deriving DecidableEq

/-- Raw request data: a Python dict of string fields. -/
abbrev InputData : Type := List (String × String)

/-- `AnalysisAgent._preprocess_data` on a dict input: keep only the four
relevant keys, defaulting each to the empty string. -/
def preprocess_data (data : InputData) : ProcData :=
  { patient_name := (alookup data "patient_name").getD ""
  , age := (alookup data "age").getD ""
  , gender := (alookup data "gender").getD ""
  , report := (alookup data "report").getD "" }

/-- Knowledge base: indicator → (patient-profile key → stored snippets),
insertion-ordered as Python dicts are. -/
abbrev KB : Type := List (String × List (String × List String))

/-- Result dict returned by `ModelManager.generate_analysis`:
`{"success": True, "content": …, "model_used": …}` or
`{"success": False, "error": …}`. -/
inductive GenResult where
  | ok (content : String) (model_used : String)
  | fail (error : String)
deriving DecidableEq

/-- `result.get("model_used", "unknown")` in `_update_analytics`. -/
def modelUsedOf : GenResult → String
  | .ok _ m => m
  | .fail _ => "unknown"

/-- The Streamlit session state used by `AnalysisAgent`. -/
structure AgentState where
  analysis_count : Nat
  last_analysis : Int
  analysis_limit : Nat
  models_used : List (String × Nat)
  knowledge_base : KB
deriving DecidableEq

/-- Microseconds in `timedelta(days=1)`. -/
def USEC_PER_DAY : Int := 86400000000

/-- `AnalysisAgent.check_rate_limit`, with `now` the current instant in
microseconds.  Returns the updated session state together with the
`(can_analyze, error_msg)` pair.  `time_until_reset.days` is the floor
division of the signed delta by one day and `time_until_reset.seconds` its
nonnegative remainder in whole seconds, exactly Python's `timedelta`
normalisation. -/
def check_rate_limit (now : Int) (st : AgentState) :
    AgentState × Bool × Option String :=
  let time_until_reset : Int := USEC_PER_DAY - (now - st.last_analysis)
  let days : Int := time_until_reset / USEC_PER_DAY
  let secs : Int := (time_until_reset % USEC_PER_DAY) / 1000000
  let hours : Int := secs / 3600
  let minutes : Int := (secs % 3600) / 60
  if days < 0 then
    ({ st with analysis_count := 0, last_analysis := now }, true, none)
  else if st.analysis_count ≥ st.analysis_limit then
    (st, false,
      some ("Daily limit reached. Reset in " ++ toString hours ++ "h " ++
        toString minutes ++ "m"))
  else
    (st, true, none)

/-- `AnalysisAgent._update_analytics`: bump the analysis count, slide the
window start to `now`, and bump the per-model usage counter. -/
def update_analytics (now : Int) (result : GenResult) (st : AgentState) :
    AgentState :=
  let model_used := modelUsedOf result
  let mu :=
    match alookup st.models_used model_used with
    | some n => aset st.models_used model_used (n + 1)
    | none => aset st.models_used model_used 1
  { st with
    analysis_count := st.analysis_count + 1
    last_analysis := now
    models_used := mu }

/-! ## ModelManager (`src/agents/modelManager.py`) -/

/-- `ModelTier` enum. -/
inductive ModelTier where
  | primary
  | secondary
  | tertiary
  | fallback
deriving DecidableEq

/-- One entry of `ModelManager.MODEL_CONFIG`. -/
structure TierConfig where
  provider : String
  model : String
  max_tokens : Nat
  temperature : ℚ

/-- `ModelManager.MODEL_CONFIG`. -/
def MODEL_CONFIG : ModelTier → TierConfig
  | .primary =>
    { provider := "groq", model := "llama-3.3-70b-versatile"
      max_tokens := 2000, temperature := 7 / 10 }
  | .secondary =>
    { provider := "groq", model := "llama-3-8b-8192"
      max_tokens := 2000, temperature := 7 / 10 }
  | .tertiary =>
    { provider := "groq", model := "mixtral-8x7b-32768"
      max_tokens := 2000, temperature := 7 / 10 }
  | .fallback =>
    { provider := "groq", model := "gemma-7b-it"
      max_tokens := 2000, temperature := 7 / 10 }

/-- Tier selection by retry count from `generate_analysis`. -/
def tierForRetry (retry_count : Nat) : ModelTier :=
  if retry_count == 0 then .primary
  else if retry_count == 1 then .secondary
  else if retry_count == 2 then .tertiary
  else .fallback

/-- Outcome of one provider completion call: the returned content, or the
text of the raised exception. -/
inductive CallOutcome where
  | ok (content : String)
  | err (msg : String)
deriving DecidableEq

/-- Oracle for the external provider clients: which providers got a client in
`_initialize_clients`, and what one `chat.completions.create` call returns for
a given (model, data, system prompt). -/
structure Env where
  hasClient : String → Bool
  call : String → String → String → CallOutcome

/-- `ModelManager.generate_analysis`.  Besides the result dict, the embedding
returns the number of underlying provider calls the invocation performed. -/
def generate_analysis (env : Env) (data system_prompt : String)
    (retry_count : Nat) : GenResult × Nat :=
  if retry_count > 3 then
    (.fail "All models failed after multiple retries", 0)
  else
    let model_config := MODEL_CONFIG (tierForRetry retry_count)
    let provider := model_config.provider
    let model := model_config.model
    if ¬ env.hasClient provider then
      generate_analysis env data system_prompt (retry_count + 1)
    else if provider == "groq" then
      match env.call model data system_prompt with
      | .ok content => (.ok content (provider ++ "/" ++ model), 1)
      | .err _ =>
        let rest := generate_analysis env data system_prompt (retry_count + 1)
        (rest.1, rest.2 + 1)
    else
      (.fail "Analysis failed with all available models", 0)
termination_by 4 - retry_count
decreasing_by all_goals omega

/-- A tier attempt at `retry_count` fails: either its provider has no
registered client, or the provider call raises. -/
def attempt_fails (env : Env) (data system_prompt : String)
    (retry_count : Nat) : Bool :=
  let model_config := MODEL_CONFIG (tierForRetry retry_count)
  ¬ env.hasClient model_config.provider ||
    match env.call model_config.model data system_prompt with
    | .ok _ => false
    | .err _ => true

/-! ## Knowledge base updater (`_update_knowledge_base`) -/

/-- The fixed indicator vocabulary. -/
def key_indicators : List String :=
  ["hemoglobin", "glucose", "cholesterol", "triglycerides",
   "hdl", "ldl", "wbc", "rbc", "platelet", "creatinine"]

/-- `f"{age}-{gender}"` profile key (the processed record always carries both
fields, so the `'unknown'` defaults of `dict.get` never fire). -/
def patient_profile (d : ProcData) : String :=
  d.age ++ "-" ++ d.gender

/-- Body of the per-indicator loop of `_update_knowledge_base`: when the
indicator occurs in the lowered report text and in the lowered analysis, make
sure the `kb[indicator][profile]` entry exists, and if some analysis line
mentions the indicator, append the first such line, popping the oldest entry
first when the sequence already holds 3 items. -/
def kbStep (report_text : String) (analysis : String) (profile : String)
    (kb : KB) (indicator : String) : KB :=
  if strContains report_text indicator then
    if strContains (lowerStr analysis) indicator then
      let kbInd := (alookup kb indicator).getD []
      let entry := (alookup kbInd profile).getD []
      let lines := splitLines analysis
      let relevant_lines := lines.filter (fun l => strContains (lowerStr l) indicator)
      match relevant_lines with
      | [] => aset kb indicator (aset kbInd profile entry)
      | r :: _ =>
        let entry' := if entry.length ≥ 3 then entry.tail else entry
        aset kb indicator (aset kbInd profile (entry' ++ [r]))
    else kb
  else kb

/-- `AnalysisAgent._update_knowledge_base` on processed data (which always
carries a `report` field, so the guard at the top never rejects it). -/
def update_knowledge_base (kb : KB) (d : ProcData) (analysis : String) : KB :=
  let report_text := lowerStr d.report
  key_indicators.foldl (kbStep report_text analysis (patient_profile d)) kb

/-- Apply a sequence of knowledge-base updates starting from the empty store. -/
def applyUpdates (updates : List (ProcData × String)) : KB :=
  updates.foldl (fun kb u => update_knowledge_base kb u.1 u.2) []

/-- Lookup of one `(indicator, profileKey)` snippet sequence. -/
def kbLookup2 (kb : KB) (indicator profile : String) : Option (List String) :=
  (alookup kb indicator).bind (fun kbInd => alookup kbInd profile)

/-! ## Prompt composer (`_get_session_context`, `_get_knowledge_base_context`,
`_build_enhanced_prompt`) -/

/-- Python slicing `s[:n]`: the first `n` characters (code points). -/
def strTake (s : String) (n : Nat) : String :=
  String.mk (s.toList.take n)

/-- The 200-character truncation of `_get_session_context`:
`msg[:197] + "..."` when the message exceeds 200 characters. -/
def truncMsg (s : String) : String :=
  if s.length > 200 then strTake s 197 ++ "..." else s

/-- The backward scan of `_get_session_context`: the index runs over Python's
`range(len(ch)-1, 0, -2)`; each adjacent (user, assistant) pair is collected,
truncated, until two pairs have been found.  The index-1 case is the last
iteration of the range, so no recursive call remains there. -/
def sessionLoop (ch : List Msg) : Nat → List (String × String) →
    List (String × String)
  | 0, acc => acc
  | 1, acc =>
    match ch[0]?, ch[1]? with
    | some mu, some ma =>
      if mu.role == "user" && ma.role == "assistant" then
        acc ++ [(truncMsg mu.content, truncMsg ma.content)]
      else acc
    | _, _ => acc
  | i + 2, acc =>
    match ch[i + 1]?, ch[i + 2]? with
    | some mu, some ma =>
      if mu.role == "user" && ma.role == "assistant" then
        let acc' := acc ++ [(truncMsg mu.content, truncMsg ma.content)]
        if acc'.length ≥ 2 then acc' else sessionLoop ch i acc'
      else sessionLoop ch i acc
    | _, _ => sessionLoop ch i acc

/-- The (truncated user, truncated assistant) pairs collected by
`_get_session_context`, most recent first. -/
def sessionPairs (ch : List Msg) : List (String × String) :=
  if ch.length < 2 then [] else sessionLoop ch (ch.length - 1) []

/-- `f"User: {user_msg}\nAssistant: {ai_msg}"`. -/
def renderPair (p : String × String) : String :=
  "User: " ++ p.1 ++ "\nAssistant: " ++ p.2

/-- `AnalysisAgent._get_session_context`. -/
def get_session_context (ch : List Msg) : String :=
  if ch.length < 2 then ""
  else
    let context_items := (sessionLoop ch (ch.length - 1) []).map renderPair
    if context_items.isEmpty then ""
    else String.intercalate "\n\n" context_items.reverse

/-- One bullet line `f"- {indicator} ({label}): {insight}"`. -/
def kbBullet (indicator label insight : String) : String :=
  "- " ++ indicator ++ " (" ++ label ++ "): " ++ insight

/-- The item-accumulation loop of `_get_knowledge_base_context`: per stored
indicator that occurs in the lowered report text, bullets for the matching
patient profile first, then bullets for every other profile. -/
def kbContextItems (kb : KB) (d : ProcData) : List String :=
  let report_text := lowerStr d.report
  kb.foldl (fun acc p =>
    if strContains report_text p.1 then
      let sim :=
        match alookup p.2 (patient_profile d) with
        | some insights => insights.map (kbBullet p.1 "similar patient profile")
        | none => []
      let others := p.2.foldl (fun acc2 q =>
        if q.1 ≠ patient_profile d then
          acc2 ++ q.2.map (kbBullet p.1 "other patient profile")
        else acc2) []
      acc ++ sim ++ others
    else acc) []

/-- The `context_items` list after the size limit of
`_get_knowledge_base_context` (`items[:5]` when more than 5). -/
def kbTruncItems (kb : KB) (d : ProcData) : List String :=
  let context_items := kbContextItems kb d
  if context_items.length > 5 then context_items.take 5 else context_items

/-- `AnalysisAgent._get_knowledge_base_context`. -/
def get_knowledge_base_context (kb : KB) (d : ProcData) : String :=
  if kb.isEmpty then ""
  else
    let context_items := kbTruncItems kb d
    if context_items.isEmpty then ""
    else String.intercalate "\n" context_items

/-- `AnalysisAgent._build_enhanced_prompt` (called only with a truthy
`chat_history`; the `isinstance`/`'report' in data` guard always holds for
processed data). -/
def build_enhanced_prompt (system_prompt : String) (d : ProcData)
    (chat_history : List Msg) (kb : KB) : String :=
  let kb_context := get_knowledge_base_context kb d
  let e1 :=
    if kb_context ≠ "" then
      system_prompt ++ "\n\n## Relevant Learning From Previous Analyses\n" ++
        kb_context
    else system_prompt
  if !chat_history.isEmpty then
    let session_context := get_session_context chat_history
    if session_context ≠ "" then
      e1 ++ "\n\n## Current Session History\n" ++ session_context
    else e1
  else e1

/-- Python truthiness of the `chat_history` argument (`None` and `[]` are
falsy). -/
def chatTruthy : Option (List Msg) → Bool
  | none => false
  | some ch => !ch.isEmpty

/-- The prompt `analyze_report` sends:
`self._build_enhanced_prompt(...) if chat_history else system_prompt`. -/
def enhancedPromptFor (system_prompt : String) (d : ProcData)
    (chat_history : Option (List Msg)) (kb : KB) : String :=
  if chatTruthy chat_history then
    build_enhanced_prompt system_prompt d (chat_history.getD []) kb
  else system_prompt

/-! ## `AnalysisAgent.analyze_report` -/

/-- `str(processed_data)`: the Python dict repr handed to the model as the
user message. -/
def strOfData (d : ProcData) : String :=
  "\x7b'patient_name': '" ++ d.patient_name ++ "', 'age': '" ++ d.age ++
    "', 'gender': '" ++ d.gender ++ "', 'report': '" ++ d.report ++ "'\x7d"

/-- The two shapes of value `analyze_report` can return: the bare
`(can_analyze, error_msg)` tuple of the `check_only` path, or a result dict. -/
inductive AnalyzeResult where
  | tuple (can_analyze : Bool) (error_msg : Option String)
  | dict (r : GenResult)
deriving DecidableEq

/-- Tail of `analyze_report` (source lines 91–98): run the generation and, on
success, update the analytics and the knowledge base. -/
def generationStep (env : Env) (now : Int) (st1 : AgentState)
    (processed_data : ProcData) (enhanced_prompt : String) :
    AgentState × AnalyzeResult :=
  let result :=
    (generate_analysis env (strOfData processed_data) enhanced_prompt 0).1
  match result with
  | .ok content _ =>
    let st2 := update_analytics now result st1
    let st3 := { st2 with
      knowledge_base :=
        update_knowledge_base st2.knowledge_base processed_data content }
    (st3, .dict result)
  | .fail _ => (st1, .dict result)

/-- `AnalysisAgent.analyze_report`, threading the session state explicitly.
Returns the session state after the call together with the returned value. -/
def analyze_report (env : Env) (now : Int) (st : AgentState) (data : InputData)
    (system_prompt : String) (check_only : Bool)
    (chat_history : Option (List Msg)) : AgentState × AnalyzeResult :=
  match check_rate_limit now st with
  | (st1, can_analyze, error_msg) =>
    if !can_analyze then (st1, .dict (.fail (error_msg.getD "")))
    else if check_only then (st1, .tuple can_analyze error_msg)
    else
      let processed_data := preprocess_data data
      let enhanced_prompt :=
        enhancedPromptFor system_prompt processed_data chat_history
          st1.knowledge_base
      generationStep env now st1 processed_data enhanced_prompt

/-! ## Rate-limiter lemmas -/

theorem crl_in_window_ok (now : Int) (st : AgentState)
    (h0 : 0 ≤ now - st.last_analysis) (h1 : now - st.last_analysis < USEC_PER_DAY)
    (hc : st.analysis_count < st.analysis_limit) :
    check_rate_limit now st = (st, true, none) := by
  simp only [USEC_PER_DAY] at h1
  simp only [check_rate_limit, USEC_PER_DAY]
  rw [if_neg (by omega), if_neg (by omega)]

theorem crl_in_window_limited (now : Int) (st : AgentState)
    (h0 : 0 ≤ now - st.last_analysis) (h1 : now - st.last_analysis < USEC_PER_DAY)
    (hc : st.analysis_limit ≤ st.analysis_count) :
    ∃ m, check_rate_limit now st = (st, false, some m) := by
  simp only [USEC_PER_DAY] at h1
  simp only [check_rate_limit, USEC_PER_DAY]
  rw [if_neg (by omega), if_pos (by omega)]
  exact ⟨_, rfl⟩

theorem crl_reset (now : Int) (st : AgentState)
    (h : USEC_PER_DAY < now - st.last_analysis) :
    check_rate_limit now st =
      ({ st with analysis_count := 0, last_analysis := now }, true, none) := by
  simp only [USEC_PER_DAY] at h
  simp only [check_rate_limit, USEC_PER_DAY]
  rw [if_pos (by omega)]

/-! ## Concrete provider environments used by witnesses -/

/-- No provider client got registered (`_initialize_clients` failed). -/
def envNone : Env := ⟨fun _ => false, fun _ _ _ => .err "boom"⟩

/-- The Groq client exists but every call raises. -/
def envErr : Env := ⟨fun p => p == "groq", fun _ _ _ => .err "server error"⟩

/-- The Groq client exists and every call succeeds. -/
def envOk : Env := ⟨fun p => p == "groq", fun m _ _ => .ok ("analysis from " ++ m)⟩

/-! ## Claims C2, C3, C8, C9 -/

/-- C2, counterexample: with the window start exactly 24 hours ago
(`now - windowStart = 24h` to the microsecond) and a prior count of 20 over
the limit of 15, `check_rate_limit` does not reset the counter and returns
`(false, message)` rather than `(true, none)`: the code resets only when
strictly more than 24 hours have elapsed (`time_until_reset.days < 0`). -/
theorem C2_boundary_cex :
    check_rate_limit 86400000000 ⟨20, 0, 15, [], []⟩ =
      (⟨20, 0, 15, [], []⟩, false, some "Daily limit reached. Reset in 0h 0m") := by
  decide

/-- C2, amended: for every `UsageState`, if strictly more than 24 hours have
passed since `windowStart`, then `check_rate_limit` resets the count to 0,
sets `windowStart` to `now`, and returns `(true, none)`, regardless of how
large the prior count was. -/
theorem C2_reset_after_window (now : Int) (st : AgentState)
    (h : USEC_PER_DAY < now - st.last_analysis) :
    check_rate_limit now st =
      ({ st with analysis_count := 0, last_analysis := now }, true, none) :=
  crl_reset now st h

/-- Witness for C2 (amended) at a concrete input just past the 24h window. -/
theorem C2_reset_witness :
    USEC_PER_DAY < (86400000001 : Int) - (0 : Int) ∧
    check_rate_limit 86400000001 ⟨20, 0, 15, [], []⟩ =
      (⟨0, 86400000001, 15, [], []⟩, true, none) :=
  ⟨by decide, C2_reset_after_window 86400000001 ⟨20, 0, 15, [], []⟩ (by decide)⟩

/-- C3: `_update_analytics` increments the analysis count by exactly 1, sets
the window start (`last_analysis`) to the current time, and increments the
per-model usage counter of the model used by 1, initializing it to 1 when
absent; other models' counters and the rest of the state are untouched. -/
theorem C3_update_analytics (now : Int) (res : GenResult) (st : AgentState) :
    (update_analytics now res st).analysis_count = st.analysis_count + 1 ∧
    (update_analytics now res st).last_analysis = now ∧
    (update_analytics now res st).analysis_limit = st.analysis_limit ∧
    (update_analytics now res st).knowledge_base = st.knowledge_base ∧
    alookup (update_analytics now res st).models_used (modelUsedOf res) =
      some ((alookup st.models_used (modelUsedOf res)).getD 0 + 1) ∧
    ∀ m, m ≠ modelUsedOf res →
      alookup (update_analytics now res st).models_used m =
        alookup st.models_used m := by
  refine ⟨rfl, rfl, rfl, rfl, ?_, ?_⟩
  · cases h : alookup st.models_used (modelUsedOf res) with
    | none => simp [update_analytics, h, alookup_aset_self]
    | some n => simp [update_analytics, h, alookup_aset_self]
  · intro m hm
    cases h : alookup st.models_used (modelUsedOf res) with
    | none => simp [update_analytics, h, alookup_aset_ne _ _ _ _ hm]
    | some n => simp [update_analytics, h, alookup_aset_ne _ _ _ _ hm]

/-- Witness for C3 at a concrete state: the used model's counter goes from 1
to 2 and another model's counter is untouched. -/
theorem C3_witness :
    alookup (update_analytics 5 (.ok "c" "groq/m")
        ⟨2, 0, 15, [("groq/m", 1), ("groq/n", 4)], []⟩).models_used "groq/m" =
      some 2 ∧
    ("groq/n" ≠ "groq/m") ∧
    alookup (update_analytics 5 (.ok "c" "groq/m")
        ⟨2, 0, 15, [("groq/m", 1), ("groq/n", 4)], []⟩).models_used "groq/n" =
      alookup [("groq/m", 1), ("groq/n", 4)] "groq/n" :=
  ⟨(C3_update_analytics 5 (.ok "c" "groq/m")
      ⟨2, 0, 15, [("groq/m", 1), ("groq/n", 4)], []⟩).2.2.2.2.1,
   by decide,
   (C3_update_analytics 5 (.ok "c" "groq/m")
      ⟨2, 0, 15, [("groq/m", 1), ("groq/n", 4)], []⟩).2.2.2.2.2 "groq/n" (by decide)⟩

/-- C8: the prompt composer invoked with an absent (`None`) or empty chat
history returns the system prompt unchanged, byte-identical, for every system
prompt, request and knowledge base. -/
theorem C8_empty_history_identity (system_prompt : String) (d : ProcData)
    (kb : KB) :
    enhancedPromptFor system_prompt d none kb = system_prompt ∧
    enhancedPromptFor system_prompt d (some []) kb = system_prompt :=
  ⟨rfl, rfl⟩

/-- C9: with `count < dailyLimit` and the window start within 24 hours of
`now`, `check_rate_limit` returns `(true, none)` and leaves every field of the
state unchanged. -/
theorem C9_check_no_mutation (now : Int) (st : AgentState)
    (h0 : 0 ≤ now - st.last_analysis) (h1 : now - st.last_analysis < USEC_PER_DAY)
    (hc : st.analysis_count < st.analysis_limit) :
    check_rate_limit now st = (st, true, none) :=
  crl_in_window_ok now st h0 h1 hc

/-- Witness for C9 at a concrete in-window state. -/
theorem C9_witness :
    (0 : Int) ≤ 7200000000 - 0 ∧ (7200000000 : Int) - 0 < USEC_PER_DAY ∧
    14 < 15 ∧
    check_rate_limit 7200000000 ⟨14, 0, 15, [], []⟩ =
      (⟨14, 0, 15, [], []⟩, true, none) :=
  ⟨by decide, by decide, by decide,
   C9_check_no_mutation 7200000000 ⟨14, 0, 15, [], []⟩ (by decide) (by decide)
     (by decide)⟩

/-! ## Claims C10 and C5 -/

/-- C10: `analyze_report` with `check_only = True` returns two different
result shapes: the bare tuple `(True, None)` when the rate limit allows, but
the dictionary `{success: False, error: message}` when the limit is reached —
a `check_only` caller cannot rely on a single result type. -/
theorem C10_check_only_shapes (env : Env) (now : Int) (st : AgentState)
    (data : InputData) (system_prompt : String) (ch : Option (List Msg))
    (h0 : 0 ≤ now - st.last_analysis)
    (h1 : now - st.last_analysis < USEC_PER_DAY) :
    (st.analysis_count < st.analysis_limit →
      analyze_report env now st data system_prompt true ch =
        (st, .tuple true none)) ∧
    (st.analysis_limit ≤ st.analysis_count →
      ∃ m, analyze_report env now st data system_prompt true ch =
        (st, .dict (.fail m))) := by
  constructor
  · intro hc
    simp [analyze_report, crl_in_window_ok now st h0 h1 hc]
  · intro hc
    obtain ⟨m, hm⟩ := crl_in_window_limited now st h0 h1 hc
    exact ⟨m, by simp [analyze_report, hm]⟩

/-- Witness for C10: the same `check_only` call shape at two concrete states,
one under the limit (bare tuple) and one at the limit (error dict). -/
theorem C10_witness :
    analyze_report envOk 7200000000 ⟨3, 0, 15, [], []⟩ [("report", "x")]
        "sys" true none = (⟨3, 0, 15, [], []⟩, .tuple true none) ∧
    ∃ m, analyze_report envOk 7200000000 ⟨20, 0, 15, [], []⟩ [("report", "x")]
        "sys" true none = (⟨20, 0, 15, [], []⟩, .dict (.fail m)) :=
  ⟨(C10_check_only_shapes envOk 7200000000 ⟨3, 0, 15, [], []⟩ [("report", "x")]
      "sys" none (by decide) (by decide)).1 (by decide),
   (C10_check_only_shapes envOk 7200000000 ⟨20, 0, 15, [], []⟩ [("report", "x")]
      "sys" none (by decide) (by decide)).2 (by decide)⟩

/-- C5: when the generation result is a Failure, `analyze_report` leaves the
whole session state — count, window start, model usage counts and knowledge
base — exactly as the preceding `check_rate_limit` left it (so apart from a
window-expiry reset, nothing is mutated). -/
theorem C5_failure_no_mutation (env : Env) (now : Int) (st : AgentState)
    (data : InputData) (system_prompt : String) (ch : Option (List Msg))
    (e : String)
    (h : (analyze_report env now st data system_prompt false ch).2 =
      .dict (.fail e)) :
    (analyze_report env now st data system_prompt false ch).1 =
      (check_rate_limit now st).1 := by
  rcases hcr : check_rate_limit now st with ⟨st1, can, msg⟩
  cases can
  · simp [analyze_report, hcr]
  · simp only [analyze_report, hcr, Bool.not_true, Bool.false_eq_true,
      if_false, if_true] at h ⊢
    rcases hg : (generate_analysis env (strOfData (preprocess_data data))
        (enhancedPromptFor system_prompt (preprocess_data data) ch
          st1.knowledge_base) 0).1 with _ | er
    · rw [generationStep, hg] at h
      simp at h
    · rw [generationStep, hg]

/-- Witness for C5: with a Groq client whose every call raises, the result is
a Failure and the state after `analyze_report` is the state after
`check_rate_limit`. -/
theorem C5_witness :
    (analyze_report envErr 7200000000 ⟨3, 0, 15, [], []⟩ [("report", "x")]
        "sys" false none).1 =
      (check_rate_limit 7200000000 ⟨3, 0, 15, [], []⟩).1 :=
  C5_failure_no_mutation envErr 7200000000 ⟨3, 0, 15, [], []⟩ [("report", "x")]
    "sys" none "All models failed after multiple retries"
    (by simp [analyze_report, check_rate_limit, USEC_PER_DAY, generationStep,
      generate_analysis, envErr, tierForRetry, MODEL_CONFIG, enhancedPromptFor,
      chatTruthy, preprocess_data, alookup, strOfData])

/-! ## Claim C1: bounded fallback -/

theorem provider_groq (t : ModelTier) : (MODEL_CONFIG t).provider = "groq" := by
  cases t <;> rfl

theorem gen_calls_le (env : Env) (data prompt : String) :
    ∀ k rc, 4 - rc ≤ k → (generate_analysis env data prompt rc).2 ≤ 4 - rc := by
  intro k
  induction k with
  | zero =>
    intro rc hk
    rw [generate_analysis, if_pos (by omega : rc > 3)]
    exact Nat.zero_le _
  | succ k ih =>
    intro rc hk
    by_cases h3 : rc > 3
    · rw [generate_analysis, if_pos h3]
      exact Nat.zero_le _
    · rw [generate_analysis, if_neg h3]
      simp only [provider_groq]
      by_cases hcl : env.hasClient "groq" = true
      · rw [if_neg (by simp [hcl]), if_pos (by simp)]
        cases hcall : env.call (MODEL_CONFIG (tierForRetry rc)).model data prompt with
        | ok c => simp [hcall]; omega
        | err m =>
          simp only [hcall]
          have := ih (rc + 1) (by omega)
          omega
      · rw [if_pos (by simp [hcl])]
        have := ih (rc + 1) (by omega)
        omega

theorem gen_all_fail (env : Env) (data prompt : String)
    (hfail : ∀ j, j < 4 → attempt_fails env data prompt j = true) :
    ∀ k rc, 4 - rc ≤ k → (generate_analysis env data prompt rc).1 =
      .fail "All models failed after multiple retries" := by
  intro k
  induction k with
  | zero =>
    intro rc hk
    rw [generate_analysis, if_pos (by omega : rc > 3)]
  | succ k ih =>
    intro rc hk
    by_cases h3 : rc > 3
    · rw [generate_analysis, if_pos h3]
    · rw [generate_analysis, if_neg h3]
      simp only [provider_groq]
      have hf := hfail rc (by omega)
      by_cases hcl : env.hasClient "groq" = true
      · rw [if_neg (by simp [hcl]), if_pos (by simp)]
        cases hcall : env.call (MODEL_CONFIG (tierForRetry rc)).model data prompt with
        | ok c =>
          exfalso
          rw [attempt_fails] at hf
          simp only [provider_groq, hcl, hcall] at hf
          simp at hf
        | err m =>
          simp only [hcall]
          exact ih (rc + 1) (by omega)
      · rw [if_pos (by simp [hcl])]
        exact ih (rc + 1) (by omega)

/-- C1: for every input data, system prompt and fixed provider behaviour,
`generate_analysis` starting at `retry_count = 0` makes at most 4 underlying
provider calls (tiers without a registered client are skipped but still count
toward the 4-attempt cap), and when all four tier attempts fail it returns
Failure with exactly the message "All models failed after multiple retries".
Termination is inherent: the embedding is a total function. -/
theorem C1_generate_bounded (env : Env) (data system_prompt : String) :
    (generate_analysis env data system_prompt 0).2 ≤ 4 ∧
    ((∀ j, j < 4 → attempt_fails env data system_prompt j = true) →
      (generate_analysis env data system_prompt 0).1 =
        .fail "All models failed after multiple retries") :=
  ⟨gen_calls_le env data system_prompt 4 0 (by omega),
   fun hf => gen_all_fail env data system_prompt hf 4 0 (by omega)⟩

/-- Witness for C1: with no registered client at all, every tier attempt
fails, zero provider calls are made (0 ≤ 4), and the final message is the
exhaustion message. -/
theorem C1_witness :
    (∀ j, j < 4 → attempt_fails envNone "d" "p" j = true) ∧
    (generate_analysis envNone "d" "p" 0).2 ≤ 4 ∧
    (generate_analysis envNone "d" "p" 0).1 =
      .fail "All models failed after multiple retries" :=
  ⟨by decide, (C1_generate_bounded envNone "d" "p").1,
   (C1_generate_bounded envNone "d" "p").2 (by decide)⟩

/-! ## Claim C6: session recall -/
theorem strTake_length (s : String) (n : Nat) :
    (strTake s n).length = min n s.length := by
  have h : (strTake s n).length = (s.toList.take n).length := rfl
  rw [h, List.length_take]
  rfl

theorem truncMsg_length (s : String) : (truncMsg s).length ≤ 200 := by
  unfold truncMsg
  split
  · rename_i h
    rw [String.length_append, strTake_length]
    have h3 : ("..." : String).length = 3 := rfl
    omega
  · rename_i h
    omega

theorem sessionLoop_length (ch : List Msg) :
    ∀ i acc, acc.length ≤ 1 → (sessionLoop ch i acc).length ≤ 2 := by
  intro i
  induction i using Nat.strong_induction_on with
  | _ i ih =>
    match i with
    | 0 => intro acc h; rw [sessionLoop]; omega
    | 1 =>
      intro acc h
      rw [sessionLoop]
      rcases ch[0]? with _ | mu <;> rcases ch[1]? with _ | ma <;> dsimp only
      · omega
      · omega
      · omega
      · split
        · simp
          omega
        · omega
    | (j + 2) =>
      intro acc h
      rw [sessionLoop]
      rcases ch[j + 1]? with _ | mu <;> rcases ch[j + 2]? with _ | ma <;> dsimp only
      · exact ih j (by omega) acc h
      · exact ih j (by omega) acc h
      · exact ih j (by omega) acc h
      · split
        · split
          · rename_i hlen
            simp at hlen ⊢
            omega
          · rename_i hlen
            refine ih j (by omega) _ ?_
            simp only [List.length_append, List.length_cons, List.length_nil] at hlen ⊢
            omega
        · exact ih j (by omega) acc h

theorem sessionLoop_segments (ch : List Msg) :
    ∀ i acc, (∀ p ∈ acc, p.1.length ≤ 200 ∧ p.2.length ≤ 200) →
      ∀ p ∈ sessionLoop ch i acc, p.1.length ≤ 200 ∧ p.2.length ≤ 200 := by
  intro i
  induction i using Nat.strong_induction_on with
  | _ i ih =>
    match i with
    | 0 => intro acc h; rw [sessionLoop]; exact h
    | 1 =>
      intro acc h
      rw [sessionLoop]
      rcases ch[0]? with _ | mu <;> rcases ch[1]? with _ | ma <;> dsimp only
      · exact h
      · exact h
      · exact h
      · split
        · intro p hp
          rcases List.mem_append.mp hp with hin | hin
          · exact h p hin
          · rcases List.mem_singleton.mp hin with rfl
            exact ⟨truncMsg_length _, truncMsg_length _⟩
        · exact h
    | (j + 2) =>
      intro acc h
      rw [sessionLoop]
      rcases ch[j + 1]? with _ | mu <;> rcases ch[j + 2]? with _ | ma <;> dsimp only
      · exact ih j (by omega) acc h
      · exact ih j (by omega) acc h
      · exact ih j (by omega) acc h
      · have hext : ∀ p ∈ acc ++ [(truncMsg mu.content, truncMsg ma.content)],
            p.1.length ≤ 200 ∧ p.2.length ≤ 200 := by
          intro p hp
          rcases List.mem_append.mp hp with hin | hin
          · exact h p hin
          · rcases List.mem_singleton.mp hin with rfl
            exact ⟨truncMsg_length _, truncMsg_length _⟩
        split
        · split
          · exact hext
          · exact ih j (by omega) _ hext
        · exact ih j (by omega) acc h

/-- C6: the session-recall section never includes more than 2 user/assistant
exchange pairs; every emitted message segment is at most 200 characters (a
source message over 200 characters is cut to its first 197 characters with
the "..." ellipsis marker appended, 200 characters in total — within the
claimed "200 characters plus the ellipsis marker"); and the emitted section
is exactly the collected pairs, rendered and joined in chronological order. -/
theorem C6_session_recall (ch : List Msg) :
    (sessionPairs ch).length ≤ 2 ∧
    (∀ p ∈ sessionPairs ch, p.1.length ≤ 200 ∧ p.2.length ≤ 200) ∧
    (∀ s : String, 200 < s.length → truncMsg s = strTake s 197 ++ "...") ∧
    get_session_context ch =
      (if (sessionPairs ch).isEmpty then ""
       else String.intercalate "\n\n" ((sessionPairs ch).map renderPair).reverse) := by
  refine ⟨?_, ?_, ?_, ?_⟩
  · unfold sessionPairs
    split
    · simp
    · exact sessionLoop_length ch _ [] (by simp)
  · unfold sessionPairs
    split
    · simp
    · exact sessionLoop_segments ch _ [] (by simp)
  · intro s hs
    unfold truncMsg
    rw [if_pos hs]
  · unfold get_session_context sessionPairs
    split
    · simp
    · cases hl : sessionLoop ch (ch.length - 1) [] with
      | nil => simp
      | cons a l => simp

def longA : String := String.mk (List.replicate 300 'a')

set_option maxRecDepth 100000 in
/-- Witness for C6 at a two-message history whose user message has 300
characters. -/
theorem C6_witness :
    (sessionPairs [⟨"user", longA⟩, ⟨"assistant", "ok"⟩]).length ≤ 2 ∧
    ((truncMsg longA, truncMsg "ok") ∈
        sessionPairs [⟨"user", longA⟩, ⟨"assistant", "ok"⟩] ∧
      (truncMsg longA).length ≤ 200 ∧ (truncMsg "ok").length ≤ 200) ∧
    (200 < longA.length ∧ truncMsg longA = strTake longA 197 ++ "...") :=
  ⟨(C6_session_recall [⟨"user", longA⟩, ⟨"assistant", "ok"⟩]).1,
   ⟨by decide,
    (C6_session_recall [⟨"user", longA⟩, ⟨"assistant", "ok"⟩]).2.1
      (truncMsg longA, truncMsg "ok") (by decide)⟩,
   ⟨by decide,
    (C6_session_recall [⟨"user", longA⟩, ⟨"assistant", "ok"⟩]).2.2.1 longA (by decide)⟩⟩

/-! ## Claim C7: knowledge recall -/
/-- The knowledge-recall items as the spec words them (refinement reference):
for each stored indicator found in the lowered report text, one bullet
`"- {indicator} ({label}): {snippet}"` per snippet, the matching profile
key's snippets first (labeled "similar patient profile"), then the snippets
of every other profile key (labeled "other patient profile"). -/
def kbContextItemsSpec (kb : KB) (d : ProcData) : List String :=
  (kb.map (fun p =>
    if strContains (lowerStr d.report) p.1 then
      ((alookup p.2 (patient_profile d)).getD []).map
          (kbBullet p.1 "similar patient profile") ++
        ((p.2.filter (fun q => q.1 ≠ patient_profile d)).map
          (fun q => q.2.map (kbBullet p.1 "other patient profile"))).flatten
    else [])).flatten

theorem foldl_filter_join {α β : Type} (c : α → Prop) [DecidablePred c]
    (g : α → List β) :
    ∀ (l : List α) (init : List β),
      l.foldl (fun acc x => if c x then acc ++ g x else acc) init =
        init ++ ((l.filter (fun x => decide (c x))).map g).flatten := by
  intro l
  induction l with
  | nil => intro init; simp
  | cons a l ih =>
    intro init
    by_cases h : c a <;> simp [h, ih, List.append_assoc]

theorem kbContextItems_eq_spec (kb : KB) (d : ProcData) :
    kbContextItems kb d = kbContextItemsSpec kb d := by
  unfold kbContextItems kbContextItemsSpec
  suffices haux : ∀ (l : KB) (init : List String),
      l.foldl (fun acc p =>
        if strContains (lowerStr d.report) p.1 then
          let sim :=
            match alookup p.2 (patient_profile d) with
            | some insights =>
              insights.map (kbBullet p.1 "similar patient profile")
            | none => []
          let others := p.2.foldl (fun acc2 q =>
            if q.1 ≠ patient_profile d then
              acc2 ++ q.2.map (kbBullet p.1 "other patient profile")
            else acc2) []
          acc ++ sim ++ others
        else acc) init =
      init ++ (l.map (fun p =>
        if strContains (lowerStr d.report) p.1 then
          ((alookup p.2 (patient_profile d)).getD []).map
              (kbBullet p.1 "similar patient profile") ++
            ((p.2.filter (fun q => q.1 ≠ patient_profile d)).map
              (fun q => q.2.map (kbBullet p.1 "other patient profile"))).flatten
        else [])).flatten by
    simpa using haux kb []
  intro l
  induction l with
  | nil => intro init; simp
  | cons p rest ih =>
    intro init
    simp only [List.foldl_cons, List.map_cons, List.flatten]
    rw [ih]
    by_cases hc : strContains (lowerStr d.report) p.1
    · simp only [hc, if_true]
      rw [foldl_filter_join (fun q => q.1 ≠ patient_profile d)
        (fun q => q.2.map (kbBullet p.1 "other patient profile")) p.2 []]
      cases halo : alookup p.2 (patient_profile d) <;>
        simp [List.append_assoc]
    · simp [hc]

/-- C7: the knowledge-recall section emits one bullet line
`"- {indicator} ({label}): {snippet}"` per stored snippet, snippets for the
matching patient-profile key (labeled "similar patient profile") before
snippets for all other profile keys (labeled "other patient profile") within
each indicator, and the combined bullet list is truncated to its first 5
items, preserving that ordering; the emitted section joins the truncated
list with newlines. -/
theorem C7_knowledge_recall (kb : KB) (d : ProcData) :
    kbContextItems kb d = kbContextItemsSpec kb d ∧
    kbTruncItems kb d = (kbContextItems kb d).take 5 ∧
    (kbTruncItems kb d).length ≤ 5 ∧
    get_knowledge_base_context kb d =
      (if (kbTruncItems kb d).isEmpty then ""
       else String.intercalate "\n" (kbTruncItems kb d)) := by
  refine ⟨kbContextItems_eq_spec kb d, ?_, ?_, ?_⟩
  · simp only [kbTruncItems]
    split
    · rfl
    · rename_i h
      exact (List.take_of_length_le (by omega)).symm
  · simp only [kbTruncItems]
    split
    · rename_i h
      have := List.length_take 5 (kbContextItems kb d)
      omega
    · rename_i h
      omega
  · unfold get_knowledge_base_context
    split
    · rename_i h
      have hkb : kb = [] := by
        cases kb with
        | nil => rfl
        | cons a l => simp at h
      subst hkb
      rfl
    · rfl

/-! ## Claim C4: knowledge-base FIFO cap -/
/-- Every stored snippet sequence holds at most 3 items. -/
def KBBounded (kb : KB) : Prop :=
  ∀ ind pk l, kbLookup2 kb ind pk = some l → l.length ≤ 3

theorem entry_length_le (kb : KB) (h : KBBounded kb) (ind pk : String) :
    ((alookup ((alookup kb ind).getD []) pk).getD []).length ≤ 3 := by
  cases hi : alookup kb ind with
  | none => simp [alookup]
  | some kbInd =>
    cases hp : alookup kbInd pk with
    | none => simp [hp]
    | some l =>
      have hb := h ind pk l (by simp [kbLookup2, hi, hp])
      simpa [hp] using hb

theorem KBBounded_aset (kb : KB) (ind pf : String) (newl : List String)
    (h : KBBounded kb) (hlen : newl.length ≤ 3) :
    KBBounded (aset kb ind (aset ((alookup kb ind).getD []) pf newl)) := by
  intro ind' pk' l hl
  unfold kbLookup2 at hl
  by_cases hi : ind' = ind
  · subst hi
    rw [alookup_aset_self] at hl
    simp only [Option.some_bind] at hl
    by_cases hp : pk' = pf
    · subst hp
      rw [alookup_aset_self] at hl
      cases hl
      exact hlen
    · rw [alookup_aset_ne _ _ _ _ hp] at hl
      cases hk : alookup kb ind' with
      | none => rw [hk] at hl; simp [alookup] at hl
      | some kbInd0 =>
        rw [hk] at hl
        exact h ind' pk' l (by simp [kbLookup2, hk]; exact hl)
  · rw [alookup_aset_ne _ _ _ _ hi] at hl
    exact h ind' pk' l hl

theorem kbStep_bounded (rt an pf : String) (kb : KB) (ind : String)
    (h : KBBounded kb) : KBBounded (kbStep rt an pf kb ind) := by
  simp only [kbStep]
  split
  · split
    · cases hrel : (splitLines an).filter (fun l => strContains (lowerStr l) ind) with
      | nil =>
        dsimp only
        exact KBBounded_aset kb ind pf _ h (entry_length_le kb h ind pf)
      | cons r rest =>
        dsimp only
        refine KBBounded_aset kb ind pf _ h ?_
        have he := entry_length_le kb h ind pf
        split
        · rename_i hge
          rw [List.length_append]
          have := List.length_tail ((alookup ((alookup kb ind).getD []) pf).getD [])
          simp
          omega
        · rename_i hge
          rw [List.length_append]
          simp
          omega
    · exact h
  · exact h

theorem foldl_preserves {α : Type} (P : KB → Prop) (f : KB → α → KB)
    (hf : ∀ kb x, P kb → P (f kb x)) :
    ∀ (l : List α) (kb : KB), P kb → P (l.foldl f kb) := by
  intro l
  induction l with
  | nil => intro kb h; simpa using h
  | cons a l ih =>
    intro kb h
    rw [List.foldl_cons]
    exact ih (f kb a) (hf kb a h)

theorem update_kb_bounded (kb : KB) (d : ProcData) (an : String)
    (h : KBBounded kb) : KBBounded (update_knowledge_base kb d an) := by
  unfold update_knowledge_base
  exact foldl_preserves KBBounded _
    (fun kb ind hb => kbStep_bounded (lowerStr d.report) an (patient_profile d) kb ind hb)
    key_indicators kb h

theorem applyUpdates_bounded (updates : List (ProcData × String)) :
    KBBounded (applyUpdates updates) := by
  unfold applyUpdates
  refine foldl_preserves KBBounded _
    (fun kb u hb => update_kb_bounded kb u.1 u.2 hb) updates [] ?_
  intro ind pk l hl
  simp [kbLookup2, alookup] at hl

/-- The concrete report/analysis pairs for the FIFO demonstration. -/
def dHemo : ProcData := ⟨"", "30", "Female", "Hemoglobin test"⟩

/-- C4: starting from the empty knowledge base, after any sequence of
knowledge-base updates every `KnowledgeBase[indicator][profileKey]` sequence
holds at most 3 snippets; and appending when the sequence already holds 3
evicts the oldest entry first (FIFO): the 4th insertion for the same
indicator/profile pair removes the 1st, as the concrete 4-update run shows. -/
theorem C4_kb_fifo_cap :
    (∀ (updates : List (ProcData × String)) (ind pk : String) (l : List String),
      kbLookup2 (applyUpdates updates) ind pk = some l → l.length ≤ 3) ∧
    kbLookup2 (applyUpdates [(dHemo, "hemoglobin one"), (dHemo, "hemoglobin two"),
        (dHemo, "hemoglobin three"), (dHemo, "hemoglobin four")])
      "hemoglobin" "30-Female" =
      some ["hemoglobin two", "hemoglobin three", "hemoglobin four"] :=
  ⟨fun updates ind pk l hl => applyUpdates_bounded updates ind pk l hl, by decide⟩

/-- Witness for C4's bound at a concrete single-update sequence. -/
theorem C4_witness :
    kbLookup2 (applyUpdates [(dHemo, "hemoglobin one")]) "hemoglobin"
        "30-Female" = some ["hemoglobin one"] ∧
    (["hemoglobin one"] : List String).length ≤ 3 :=
  ⟨by decide,
   C4_kb_fifo_cap.1 [(dHemo, "hemoglobin one")] "hemoglobin" "30-Female"
     ["hemoglobin one"] (by decide)⟩
